import Mathlib

/-!
Shallow embedding of the MeerK40t `BaseDevice.py` core: the `Interpreter`
(tick/drain loop, hold machinery, queued and realtime command dispatch,
property register) and the `Spooler` (FIFO job queue).  Stateful Python
methods become explicit state-passing functions over one combined state
type `S` (interpreter fields + the `context` fields the module touches +
the spooler queue + the published event log).  Python exceptions are made
explicit: fallible operations return an `Option PyExc` alongside the new
state (exceptions do not roll state back, matching Python).
-/

namespace BaseDevice

/-- Interpreter motion-mode constants, as in the source header. -/
def INTERPRETER_STATE_RAPID : Nat := 0

def INTERPRETER_STATE_FINISH : Nat := 1

def INTERPRETER_STATE_PROGRAM : Nat := 2

def INTERPRETER_STATE_MODECHANGE : Nat := 3

/-- Modelled from the spec: the numeric values of the `LaserCommandConstants`
module are not under src/; the spec (§6) gives a closed enumeration of queued
command codes, each an integer.  The values are chosen here as arbitrary
distinct integers (only distinctness is ever used).  `COMMAND_SET_DRATIO`
stands for the source's `COMMAND_SET_D_RATIO`. -/
def COMMAND_LASER_OFF : Int := 1

def COMMAND_LASER_ON : Int := 2

def COMMAND_LASER_DISABLE : Int := 3

def COMMAND_LASER_ENABLE : Int := 4

def COMMAND_CUT : Int := 5

def COMMAND_MOVE : Int := 6

def COMMAND_JOG : Int := 7

def COMMAND_JOG_SWITCH : Int := 8

def COMMAND_JOG_FINISH : Int := 9

def COMMAND_HOME : Int := 10

def COMMAND_LOCK : Int := 11

def COMMAND_UNLOCK : Int := 12

def COMMAND_PLOT : Int := 13

def COMMAND_PLOT_START : Int := 14

def COMMAND_SET_SPEED : Int := 15

def COMMAND_SET_POWER : Int := 16

def COMMAND_SET_PPI : Int := 17

def COMMAND_SET_PWM : Int := 18

def COMMAND_SET_STEP : Int := 19

def COMMAND_SET_OVERSCAN : Int := 20

def COMMAND_SET_ACCELERATION : Int := 21

def COMMAND_SET_DRATIO : Int := 22

def COMMAND_SET_DIRECTION : Int := 23

def COMMAND_SET_INCREMENTAL : Int := 24

def COMMAND_SET_ABSOLUTE : Int := 25

def COMMAND_SET_POSITION : Int := 26

def COMMAND_MODE_RAPID : Int := 27

def COMMAND_MODE_PROGRAM : Int := 28

def COMMAND_MODE_FINISHED : Int := 29

def COMMAND_WAIT : Int := 30

def COMMAND_WAIT_FINISH : Int := 31

def COMMAND_BEEP : Int := 32

def COMMAND_FUNCTION : Int := 33

def COMMAND_SIGNAL : Int := 34

/-- The closed enumeration of queued command codes (spec §6). -/
def queuedCodes : List Int :=
  [COMMAND_LASER_OFF, COMMAND_LASER_ON, COMMAND_LASER_DISABLE, COMMAND_LASER_ENABLE,
   COMMAND_CUT, COMMAND_MOVE, COMMAND_JOG, COMMAND_JOG_SWITCH, COMMAND_JOG_FINISH,
   COMMAND_HOME, COMMAND_LOCK, COMMAND_UNLOCK, COMMAND_PLOT, COMMAND_PLOT_START,
   COMMAND_SET_SPEED, COMMAND_SET_POWER, COMMAND_SET_PPI, COMMAND_SET_PWM,
   COMMAND_SET_STEP, COMMAND_SET_OVERSCAN, COMMAND_SET_ACCELERATION, COMMAND_SET_DRATIO,
   COMMAND_SET_DIRECTION, COMMAND_SET_INCREMENTAL, COMMAND_SET_ABSOLUTE,
   COMMAND_SET_POSITION, COMMAND_MODE_RAPID, COMMAND_MODE_PROGRAM, COMMAND_MODE_FINISHED,
   COMMAND_WAIT, COMMAND_WAIT_FINISH, COMMAND_BEEP, COMMAND_FUNCTION, COMMAND_SIGNAL]

/-- Modelled from the spec: realtime command codes (spec §4.2/§6), again only
distinctness matters.  They flow through `realtime_command`, never the queue. -/
def REALTIME_PAUSE : Int := 101

def REALTIME_RESUME : Int := 102

def REALTIME_RESET : Int := 103

def REALTIME_STATUS : Int := 104

def REALTIME_SAFETY_DOOR : Int := 105

def REALTIME_JOG_CANCEL : Int := 106

def REALTIME_SPEED_PERCENT : Int := 107

def REALTIME_SPEED : Int := 108

def REALTIME_RAPID_PERCENT : Int := 109

def REALTIME_RAPID : Int := 110

def REALTIME_POWER_PERCENT : Int := 111

def REALTIME_POWER : Int := 112

def REALTIME_OVERSCAN : Int := 113

def REALTIME_LASER_DISABLE : Int := 114

def REALTIME_LASER_ENABLE : Int := 115

def REALTIME_FLOOD_COOLANT : Int := 116

def REALTIME_MIST_COOLANT : Int := 117

/-- The closed set of realtime command codes (spec §6). -/
def realtimeCodes : List Int :=
  [REALTIME_PAUSE, REALTIME_RESUME, REALTIME_RESET, REALTIME_STATUS,
   REALTIME_SAFETY_DOOR, REALTIME_JOG_CANCEL, REALTIME_SPEED_PERCENT, REALTIME_SPEED,
   REALTIME_RAPID_PERCENT, REALTIME_RAPID, REALTIME_POWER_PERCENT, REALTIME_POWER,
   REALTIME_OVERSCAN, REALTIME_LASER_DISABLE, REALTIME_LASER_ENABLE,
   REALTIME_FLOOD_COOLANT, REALTIME_MIST_COOLANT]

/-- Python exceptions the module can raise or swallow. -/
inductive PyExc where
  | attributeError
  | valueError
  | typeError
  | indexError
  deriving Repr, DecidableEq

/-- A positional command argument.  Numeric arguments (coordinates, speeds,
powers — Python ints and floats) are modelled as rationals; `func` stands for
a callable payload (COMMAND_FUNCTION), `other` for any non-numeric,
non-callable value such as a string. -/
inductive Arg where
  | num (q : ℚ)
  | func
  | other
  deriving Repr, DecidableEq

/-- The first positional slot of a dispatched value: an integer command code,
or something that is not an integer (e.g. a string). -/
inductive PyHead where
  | intH (code : Int)
  | otherH
  deriving Repr, DecidableEq

/-- A value pulled from a lazy sequence (or dispatched directly): either a
bare non-tuple value, or a tuple `(head, arg, ...)`. -/
inductive Element where
  | bare (h : PyHead)
  | tup (h : PyHead) (args : List Arg)
  deriving Repr, DecidableEq

/-- A job held in the spooler queue: a bare integer code, a command tuple,
a generator factory (`.generate()` yields the listed elements in order), or
an unrecognized (e.g. text) element that fits none of the protocols. -/
inductive Job where
  | intJ (code : Int)
  | tupJ (h : PyHead) (args : List Arg)
  | genJ (cmds : List Element)
  | badJ
  deriving Repr, DecidableEq

/-- The in-flight `spooled_item`: a single command tuple, or a partially
drained generator holding its remaining elements. -/
inductive SpooledItem where
  | single (h : PyHead) (args : List Arg)
  | iter (rest : List Element)
  deriving Repr, DecidableEq

/-- A hold predicate (a zero-argument Python closure).  `pure pred count`
models a stateful closure: its `count`-th call returns `pred count` and bumps
the counter.  `pipeHold` is the closure `wait_finish` appends, which reads the
undefined attribute `self.pipe` and hence raises AttributeError when called. -/
inductive HoldFn where
  | pure (pred : Nat → Bool) (count : Nat)
  | pipeHold

/-- Events published on the context signal bus, by signal name in the source:
`mode` is 'interpreter;mode', `status` is 'interpreter;status', `queueLen` is
'spooler;queue', `named` is a COMMAND_SIGNAL payload. -/
inductive Signal where
  | mode (st : Nat)
  | status (x y speed power : ℚ)
  | queueLen (n : Nat)
  | named (a : Arg)

/-- `LaserSettings` fields the module touches (spec §3; the class itself lives
in `CutCode`, outside src/).  `dratio` stands for the source's `d_ratio`. -/
structure LaserSettings where
  speed : ℚ
  power : ℚ
  dratio : ℚ
  acceleration : ℚ
  raster_step : ℚ
  overscan : ℚ
  laser_enabled : Bool

/-- The combined mutable state: `Interpreter` fields, the `context` fields the
module reads/writes (position, option settings, quit flag, signal bus), and
the `Spooler`'s queue. -/
structure S where
  settings : LaserSettings
  spooledItem : Option SpooledItem
  holds : List HoldFn
  tempHolds : List HoldFn
  state : Nat
  properties : Nat
  isRelative : Bool
  laser : Bool
  currentX : ℚ
  currentY : ℚ
  rapid : Bool
  jogInt : Int
  nextRun : ℚ
  optRapidBetween : Bool
  optJogMode : Int
  optJogMinimum : ℚ
  quit : Bool
  stopped : Bool
  queue : List Job
  signals : List Signal

/-- Append one published event. -/
def pushSignal (sg : Signal) (s : S) : S :=
  { s with signals := s.signals ++ [sg] }

/-! ### Property register (source lines 418-431) -/

/-- `set_prop`: `self.properties |= mask`. -/
def set_prop (mask : Nat) (s : S) : S :=
  { s with properties := s.properties ||| mask }

/-- `unset_prop`: `self.properties &= ~mask`.  On Python's unbounded
non-negative ints, `p & ~mask` clears exactly the bits of `mask`, which is
`Nat.ldiff p mask`. -/
def unset_prop (mask : Nat) (s : S) : S :=
  { s with properties := Nat.ldiff s.properties mask }

/-- `is_prop`: `bool(self.properties & mask)`. -/
def is_prop (mask : Nat) (s : S) : Bool :=
  s.properties &&& mask != 0

/-- `toggle_prop`: unset if set, set if unset. -/
def toggle_prop (mask : Nat) (s : S) : S :=
  if is_prop mask s then unset_prop mask s else set_prop mask s

/-! ### Spooler (source lines 434-528) -/

/-- `Spooler.peek`: head of the queue, or nothing. -/
def peek (s : S) : Option Job := s.queue.head?

/-- `Spooler.job` called with a single argument: `len(job) == 1`, so the
element is appended at the tail; publishes the new queue length. -/
def job_one (e : Job) (s : S) : S :=
  let q := s.queue ++ [e]
  { s with queue := q, signals := s.signals ++ [Signal.queueLen q.length] }

/-- `Spooler.job_if_idle`: enqueue only when the queue is empty, returning
whether it enqueued. -/
def job_if_idle (e : Job) (s : S) : Bool × S :=
  if s.queue.length = 0 then (true, job_one e s) else (false, s)

/-- `Spooler.clear_queue`: replace the queue with the empty list and publish
length 0. -/
def clear_queue (s : S) : S :=
  { s with queue := [], signals := s.signals ++ [Signal.queueLen 0] }

/-! ### Interpreter state mutators (source lines 302-431) -/

def laser_off (s : S) : S := { s with laser := false }

def laser_on (s : S) : S := { s with laser := true }

def laser_disable (s : S) : S :=
  { s with settings := { s.settings with laser_enabled := false } }

def laser_enable (s : S) : S :=
  { s with settings := { s.settings with laser_enabled := true } }

def move (x y : ℚ) (s : S) : S := { s with currentX := x, currentY := y }

def cut (x y : ℚ) (s : S) : S := { s with currentX := x, currentY := y }

def home (s : S) : S := { s with currentX := 0, currentY := 0 }

def set_position (x y : ℚ) (s : S) : S := { s with currentX := x, currentY := y }

/-- `ensure_rapid_mode`: no-op when already RAPID, else set the mode and
publish an 'interpreter;mode' event. -/
def ensure_rapid_mode (s : S) : S :=
  if s.state = INTERPRETER_STATE_RAPID then s
  else pushSignal (Signal.mode INTERPRETER_STATE_RAPID)
    { s with state := INTERPRETER_STATE_RAPID }

/-- `ensure_finished_mode`: same pattern targeting FINISH. -/
def ensure_finished_mode (s : S) : S :=
  if s.state = INTERPRETER_STATE_FINISH then s
  else pushSignal (Signal.mode INTERPRETER_STATE_FINISH)
    { s with state := INTERPRETER_STATE_FINISH }

/-- `ensure_program_mode`: same pattern targeting PROGRAM. -/
def ensure_program_mode (s : S) : S :=
  if s.state = INTERPRETER_STATE_PROGRAM then s
  else pushSignal (Signal.mode INTERPRETER_STATE_PROGRAM)
    { s with state := INTERPRETER_STATE_PROGRAM }

def set_speed (speed : ℚ) (s : S) : S :=
  { s with settings := { s.settings with speed := speed } }

/-- `set_power`: assign, then truncate above 1000 and below/at 0. -/
def set_power (power : ℚ) (s : S) : S :=
  let s := { s with settings := { s.settings with power := power } }
  let s := if s.settings.power > 1000 then
    { s with settings := { s.settings with power := 1000 } } else s
  if s.settings.power ≤ 0 then
    { s with settings := { s.settings with power := 0 } } else s

/-- `set_ppi`: byte-for-byte the same body as `set_power`. -/
def set_ppi (power : ℚ) (s : S) : S :=
  let s := { s with settings := { s.settings with power := power } }
  let s := if s.settings.power > 1000 then
    { s with settings := { s.settings with power := 1000 } } else s
  if s.settings.power ≤ 0 then
    { s with settings := { s.settings with power := 0 } } else s

/-- `set_pwm`: assigns `settings.power`, then reads `self.power` — an
attribute the class never defines — so it raises AttributeError before any
clamping line runs.  The assignment has already happened when it raises. -/
def set_pwm (power : ℚ) (s : S) : Option PyExc × S :=
  (some PyExc.attributeError, { s with settings := { s.settings with power := power } })

def set_dratio (d : ℚ) (s : S) : S :=
  { s with settings := { s.settings with dratio := d } }

def set_acceleration (a : ℚ) (s : S) : S :=
  { s with settings := { s.settings with acceleration := a } }

def set_step (st : ℚ) (s : S) : S :=
  { s with settings := { s.settings with raster_step := st } }

def set_overscan (o : ℚ) (s : S) : S :=
  { s with settings := { s.settings with overscan := o } }

def set_incremental (s : S) : S := { s with isRelative := true }

def set_absolute (s : S) : S := { s with isRelative := false }

def wait (t : ℚ) (s : S) : S := { s with nextRun := t }

/-- `wait_finish` appends the closure `lambda: len(self.pipe) != 0` to the
temporary holds; appending does not evaluate it (it would raise
AttributeError when called, since `self.pipe` is undefined). -/
def wait_finish (s : S) : S :=
  { s with tempHolds := s.tempHolds ++ [HoldFn.pipeHold] }

/-- `reset`: drop the in-flight item, clear the spooler queue (which publishes
length 0) and clear the temporary holds.  The permanent `holds` list is not
touched. -/
def reset (s : S) : S :=
  let s := { s with spooledItem := none }
  let s := clear_queue s
  { s with spooledItem := none, tempHolds := [] }

/-- `status`: publish an 'interpreter;status' event carrying the position,
speed and power. -/
def status (s : S) : S :=
  pushSignal (Signal.status s.currentX s.currentY s.settings.speed s.settings.power) s

/-! ### Queued command dispatch (source lines 130-232) -/

/-- `x, y = values`: succeeds on exactly two numeric arguments.  (A
length mismatch raises ValueError in Python; the model restricts coordinates
to numbers — every dispatch site in the module stores them as coordinates.) -/
def unpack2 : List Arg → Option (ℚ × ℚ)
  | [Arg.num x, Arg.num y] => some (x, y)
  | _ => none

/-- `values[0]` as a number: IndexError on an empty argument tuple. -/
def num0 : List Arg → Except PyExc ℚ
  | [] => Except.error PyExc.indexError
  | Arg.num x :: _ => Except.ok x
  | _ => Except.error PyExc.typeError

/-- `values[1]` as a number. -/
def num1 : List Arg → Except PyExc ℚ
  | _ :: Arg.num y :: _ => Except.ok y
  | [_] => Except.error PyExc.indexError
  | [] => Except.error PyExc.indexError
  | _ => Except.error PyExc.typeError

/-- The body of the `try:` block inside `Interpreter.command`: the
code→handler if/elif chain.  Branches calling a method the class does not
define (`lock_rail`, `unlock_rail`, `plot_plot`, `plot_start`,
`set_directions`) raise AttributeError at the attribute lookup, before
touching the arguments.  The three JOG branches unpack `x, y` and then call
`self.jog`, which `__init__` rebound to the integer `context.opt_jog_mode`;
calling an int raises TypeError.  An integer code matching no branch falls
through the chain as a no-op.  COMMAND_BEEP only performs external I/O and
COMMAND_FUNCTION only calls the external callable, so neither touches the
state.  COMMAND_SIGNAL publishes only when at least two values are present
(the `isinstance(values, str)` arm can never fire on a tuple). -/
def dispatch (c : Int) (vals : List Arg) (s : S) : Option PyExc × S :=
  if c = COMMAND_LASER_OFF then (none, laser_off s)
  else if c = COMMAND_LASER_ON then (none, laser_on s)
  else if c = COMMAND_LASER_DISABLE then (none, laser_disable s)
  else if c = COMMAND_LASER_ENABLE then (none, laser_enable s)
  else if c = COMMAND_CUT then
    match unpack2 vals with
    | some (x, y) => (none, cut x y s)
    | none => (some PyExc.valueError, s)
  else if c = COMMAND_MOVE then
    match unpack2 vals with
    | some (x, y) => (none, move x y s)
    | none => (some PyExc.valueError, s)
  else if c = COMMAND_JOG then
    match unpack2 vals with
    | some _ => (some PyExc.typeError, s)
    | none => (some PyExc.valueError, s)
  else if c = COMMAND_JOG_SWITCH then
    match unpack2 vals with
    | some _ => (some PyExc.typeError, s)
    | none => (some PyExc.valueError, s)
  else if c = COMMAND_JOG_FINISH then
    match unpack2 vals with
    | some _ => (some PyExc.typeError, s)
    | none => (some PyExc.valueError, s)
  else if c = COMMAND_HOME then (none, home s)
  else if c = COMMAND_LOCK then (some PyExc.attributeError, s)
  else if c = COMMAND_UNLOCK then (some PyExc.attributeError, s)
  else if c = COMMAND_PLOT then (some PyExc.attributeError, s)
  else if c = COMMAND_PLOT_START then (some PyExc.attributeError, s)
  else if c = COMMAND_SET_SPEED then
    match num0 vals with
    | Except.ok v => (none, set_speed v s)
    | Except.error e => (some e, s)
  else if c = COMMAND_SET_POWER then
    match num0 vals with
    | Except.ok v => (none, set_power v s)
    | Except.error e => (some e, s)
  else if c = COMMAND_SET_PPI then
    match num0 vals with
    | Except.ok v => (none, set_ppi v s)
    | Except.error e => (some e, s)
  else if c = COMMAND_SET_PWM then
    match num0 vals with
    | Except.ok v => set_pwm v s
    | Except.error e => (some e, s)
  else if c = COMMAND_SET_STEP then
    match num0 vals with
    | Except.ok v => (none, set_step v s)
    | Except.error e => (some e, s)
  else if c = COMMAND_SET_OVERSCAN then
    match num0 vals with
    | Except.ok v => (none, set_overscan v s)
    | Except.error e => (some e, s)
  else if c = COMMAND_SET_ACCELERATION then
    match num0 vals with
    | Except.ok v => (none, set_acceleration v s)
    | Except.error e => (some e, s)
  else if c = COMMAND_SET_DRATIO then
    match num0 vals with
    | Except.ok v => (none, set_dratio v s)
    | Except.error e => (some e, s)
  else if c = COMMAND_SET_DIRECTION then (some PyExc.attributeError, s)
  else if c = COMMAND_SET_INCREMENTAL then (none, set_incremental s)
  else if c = COMMAND_SET_ABSOLUTE then (none, set_absolute s)
  else if c = COMMAND_SET_POSITION then
    match num0 vals, num1 vals with
    | Except.ok x, Except.ok y => (none, set_position x y s)
    | Except.error e, _ => (some e, s)
    | _, Except.error e => (some e, s)
  else if c = COMMAND_MODE_RAPID then (none, ensure_rapid_mode s)
  else if c = COMMAND_MODE_PROGRAM then (none, ensure_program_mode s)
  else if c = COMMAND_MODE_FINISHED then (none, ensure_finished_mode s)
  else if c = COMMAND_WAIT then
    match num0 vals with
    | Except.ok v => (none, wait v s)
    | Except.error e => (some e, s)
  else if c = COMMAND_WAIT_FINISH then (none, wait_finish s)
  else if c = COMMAND_BEEP then (none, s)
  else if c = COMMAND_FUNCTION then (none, s)
  else if c = COMMAND_SIGNAL then
    match vals with
    | a :: _ :: _ => (none, pushSignal (Signal.named a) s)
    | _ => (none, s)
  else (none, s)

/-- `Interpreter.command` on a single dispatched value.  A tuple is split
into code and values; a bare value has empty values.  A non-integer code
returns False before the `try:` block.  Inside it, AttributeError is caught
(`pass`) and the call still returns True; any other exception propagates. -/
def command (e : Element) (s : S) : Option PyExc × Bool × S :=
  let (h, vals) := match e with
    | Element.bare h => (h, ([] : List Arg))
    | Element.tup h args => (h, args)
  match h with
  | PyHead.otherH => (none, false, s)
  | PyHead.intH c =>
    match dispatch c vals s with
    | (some PyExc.attributeError, s') => (none, true, s')
    | (some ex, s') => (some ex, true, s')
    | (none, s') => (none, true, s')

/-- `Interpreter.realtime_command` (source lines 234-275).  Only `reset` and
`status` exist on the class; every other branch raises AttributeError at the
method lookup, which the surrounding `except AttributeError: pass` swallows.
An unknown code falls through as a no-op.  No branch can raise anything
else, so the function is total on the state. -/
def realtime_command (c : Int) (s : S) : S :=
  if c = REALTIME_PAUSE then s
  else if c = REALTIME_RESUME then s
  else if c = REALTIME_RESET then reset s
  else if c = REALTIME_STATUS then status s
  else if c = REALTIME_SAFETY_DOOR then s
  else if c = REALTIME_JOG_CANCEL then s
  else if c = REALTIME_SPEED_PERCENT then s
  else if c = REALTIME_SPEED then s
  else if c = REALTIME_RAPID_PERCENT then s
  else if c = REALTIME_RAPID then s
  else if c = REALTIME_POWER_PERCENT then s
  else if c = REALTIME_POWER then s
  else if c = REALTIME_OVERSCAN then s
  else if c = REALTIME_LASER_DISABLE then s
  else if c = REALTIME_LASER_ENABLE then s
  else if c = REALTIME_FLOOD_COOLANT then s
  else if c = REALTIME_MIST_COOLANT then s
  else s

/-! ### Hold machinery (source lines 277-300) -/

/-- Call a hold closure: its boolean result and its updated closure state, or
`none` for the AttributeError `pipeHold` raises. -/
def callHold : HoldFn → Option (Bool × HoldFn)
  | HoldFn.pure p c => some (p c, HoldFn.pure p (c + 1))
  | HoldFn.pipeHold => none

/-- The temp-hold loop of `hold`: evaluate every temporary hold once, in
order; an entry whose closure returns False is marked and pruned at the end
of the loop, one returning True survives (with its closure state advanced)
and raises the `temp_hold` flag.  Returns `none` when a closure raises
(the exception escapes `hold`; no claim observes the partially-updated
list in that case). -/
def processTempHolds : List HoldFn → Option (List HoldFn × Bool)
  | [] => some ([], false)
  | h :: rest =>
    match callHold h with
    | none => none
    | some (b, h') =>
      match processTempHolds rest with
      | none => none
      | some (rest', flag) =>
        if b then some (h' :: rest', true) else some (rest', flag)

/-- The permanent-hold loop of `hold`: evaluate in order, stopping at the
first closure returning True; closures already evaluated keep their advanced
state. -/
def checkHolds : List HoldFn → Option (Bool × List HoldFn)
  | [] => some (false, [])
  | h :: rest =>
    match callHold h with
    | none => none
    | some (b, h') =>
      if b then some (true, h' :: rest)
      else
        match checkHolds rest with
        | none => none
        | some (b2, rest') => some (b2, h' :: rest')

/-- `Interpreter.hold`: prune the temporary holds; any surviving temporary
hold, or any permanent hold currently returning True, holds the data. -/
def hold (s : S) : Option PyExc × Bool × S :=
  match processTempHolds s.tempHolds with
  | none => (some PyExc.attributeError, false, s)
  | some (th', tempFlag) =>
    let s := { s with tempHolds := th' }
    if tempFlag then (none, true, s)
    else
      match checkHolds s.holds with
      | none => (some PyExc.attributeError, false, s)
      | some (b, hs') => (none, b, { s with holds := hs' })

/-! ### Fetch / tick loop (source lines 49-128) -/

/-- `_fetch_next_item_from_spooler`: peek, pop (publishing the new length),
then normalize — a bare int becomes a one-tuple command; a tuple is kept; a
generator factory refreshes `rapid`/`jog` from the context options and is
invoked for a fresh iterator; anything else also refreshes the options, fails
both the `.generate()` and call protocols (both exceptions caught) and is
dropped, leaving no item in flight. -/
def fetchNextItem (s : S) : S :=
  match s.queue with
  | [] => s
  | j :: rest =>
    let s := { s with queue := rest, signals := s.signals ++ [Signal.queueLen rest.length] }
    match j with
    | Job.intJ c => { s with spooledItem := some (SpooledItem.single (PyHead.intH c) []) }
    | Job.tupJ h args => { s with spooledItem := some (SpooledItem.single h args) }
    | Job.genJ cmds =>
      { s with rapid := s.optRapidBetween, jogInt := s.optJogMode,
               spooledItem := some (SpooledItem.iter cmds) }
    | Job.badJ => { s with rapid := s.optRapidBetween, jogInt := s.optJogMode }

/-- `_process_spooled_item`: hold check, device bulk hook
(`plotplanner_process`, constantly False in this class), then: a command
item is dispatched and cleared on a True result; a generator is pulled for
exactly one element (the iterator advances in place) — StopIteration clears
the slot, and a dispatched element reported unrecognized triggers
`raise ValueError`, which the `except StopIteration:` clause does not catch.
A command tuple whose dispatch returns False reaches `next()` on a
non-iterator, raising TypeError. -/
def processSpooledItem (s : S) : Option PyExc × S :=
  match hold s with
  | (some ex, _, s') => (some ex, s')
  | (none, true, s') => (none, s')
  | (none, false, s') =>
    match s'.spooledItem with
    | none => (none, s')
    | some (SpooledItem.single h args) =>
      match command (Element.tup h args) s' with
      | (some ex, _, s'') => (some ex, s'')
      | (none, true, s'') => (none, { s'' with spooledItem := none })
      | (none, false, s'') => (some PyExc.typeError, s'')
    | some (SpooledItem.iter rest) =>
      match rest with
      | [] => (none, { s' with spooledItem := none })
      | e :: es =>
        let s1 := { s' with spooledItem := some (SpooledItem.iter es) }
        match command e s1 with
        | (some ex, _, s2) => (some ex, s2)
        | (none, true, s2) => (none, s2)
        | (none, false, s2) => (some PyExc.valueError, s2)

/-- `interpret` — one tick: fetch when nothing is in flight; with still
nothing in flight, perform the shutdown check and end idle; otherwise
process the in-flight item. -/
def interpret (s : S) : Option PyExc × S :=
  let s := if s.spooledItem.isNone then fetchNextItem s else s
  match s.spooledItem with
  | none => if s.quit then (none, { s with stopped := true }) else (none, s)
  | some _ => processSpooledItem s

/-- The state after a tick, exceptions and all (Python does not roll back). -/
def tickS (s : S) : S := (interpret s).2

/-- The exception escaping a tick, if any. -/
def tickExc (s : S) : Option PyExc := (interpret s).1

/-- Result of the next `hold()` call on a state. -/
def holdB (s : S) : Bool := (hold s).2.1

/-- State after the next `hold()` call. -/
def holdS (s : S) : S := (hold s).2.2

/-- State after `n` consecutive `hold()` calls (one per tick while an item is
in flight). -/
def holdIter : Nat → S → S
  | 0, s => s
  | n + 1, s => holdS (holdIter n s)

/-- Mode-changed events published so far. -/
def modeSignalCount (s : S) : Nat :=
  (s.signals.filter fun sg => match sg with
    | Signal.mode _ => true
    | _ => false).length

/-- A fresh `LaserSettings` (field defaults are immaterial to every claim;
the class body is outside src/). -/
def settings0 : LaserSettings :=
  { speed := 0, power := 0, dratio := 0, acceleration := 0,
    raster_step := 0, overscan := 0, laser_enabled := false }

/-- A freshly constructed interpreter/spooler state, as `__init__` leaves it:
RAPID mode, zero position, no holds, empty queue, nothing in flight. -/
def state0 : S :=
  { settings := settings0, spooledItem := none, holds := [], tempHolds := [],
    state := INTERPRETER_STATE_RAPID, properties := 0, isRelative := false,
    laser := false, currentX := 0, currentY := 0, rapid := true, jogInt := 0,
    nextRun := 0, optRapidBetween := true, optJogMode := 0, optJogMinimum := 127,
    quit := false, stopped := false, queue := [], signals := [] }

/-- The head of a dispatched value (the command-code slot). -/
def headOf : Element → PyHead
  | Element.bare h => h
  | Element.tup h _ => h

/-- A state with one pending job, for exercising the non-empty-queue branch. -/
def stateQ : S := { state0 with queue := [Job.intJ COMMAND_HOME] }

/-- A state whose in-flight lazy sequence is about to yield an unrecognized
(non-integer-coded) value, with a recognized command still behind it. -/
def c1state : S :=
  { state0 with spooledItem := some (SpooledItem.iter
      [Element.bare PyHead.otherH, Element.tup (PyHead.intH COMMAND_HOME) []]) }

/-- Variant with a tuple-shaped unrecognized value. -/
def c1stateW : S :=
  { state0 with spooledItem := some (SpooledItem.iter
      [Element.tup PyHead.otherH [Arg.num 3], Element.tup (PyHead.intH COMMAND_HOME) []]) }

/-- A predicate that is true on exactly its first two evaluations. -/
def pred2 : Nat → Bool := fun k => decide (k < 2)

/-- A state carrying one fresh temporary hold built on `pred2`. -/
def c3state : S := { state0 with tempHolds := [HoldFn.pure pred2 0] }

/-- A mid-drain state: a multi-command job in flight, further jobs pending,
one temporary and one permanent hold installed. -/
def c4state : S :=
  { state0 with
    spooledItem := some (SpooledItem.iter [Element.tup (PyHead.intH COMMAND_HOME) []]),
    queue := [Job.intJ COMMAND_HOME, Job.genJ []],
    tempHolds := [HoldFn.pipeHold],
    holds := [HoldFn.pure (fun _ => true) 0] }

/-- The spec §8 scenario job: a lazy sequence yielding SET_SPEED(10) then
MOVE(5,5) and then exhausting. -/
def c7job : Job :=
  Job.genJ [Element.tup (PyHead.intH COMMAND_SET_SPEED) [Arg.num 10],
            Element.tup (PyHead.intH COMMAND_MOVE) [Arg.num 5, Arg.num 5]]

/-- Fresh state with the §8 scenario job spooled. -/
def c7state : S := { state0 with queue := [c7job] }

/-- Fresh state sitting in PROGRAM mode. -/
def statePgm : S := { state0 with state := INTERPRETER_STATE_PROGRAM }

/-! ## Helper lemmas -/

theorem lor_land_self (p m : Nat) : (p ||| m) &&& m = m := by
  apply Nat.eq_of_testBit_eq
  intro i
  rw [Nat.testBit_land, Nat.testBit_lor]
  cases hp : p.testBit i <;> cases hm : m.testBit i <;> rfl

theorem ldiff_land_self (p m : Nat) : Nat.ldiff p m &&& m = 0 := by
  apply Nat.eq_of_testBit_eq
  intro i
  rw [Nat.testBit_land, Nat.testBit_ldiff, Nat.zero_testBit]
  cases hp : p.testBit i <;> cases hm : m.testBit i <;> rfl

/-- An integer code outside the §6 enumeration matches no branch of the
dispatch chain: no exception, no state change. -/
theorem dispatch_unlisted (c : Int) (vals : List Arg) (s : S) (hc : c ∉ queuedCodes) :
    dispatch c vals s = (none, s) := by
  simp only [queuedCodes, List.mem_cons, List.not_mem_nil, or_false, not_or] at hc
  obtain ⟨h1, h2, h3, h4, h5, h6, h7, h8, h9, h10, h11, h12, h13, h14, h15, h16, h17, h18,
    h19, h20, h21, h22, h23, h24, h25, h26, h27, h28, h29, h30, h31, h32, h33, h34⟩ := hc
  unfold dispatch
  simp only [if_neg h1, if_neg h2, if_neg h3, if_neg h4, if_neg h5, if_neg h6, if_neg h7,
    if_neg h8, if_neg h9, if_neg h10, if_neg h11, if_neg h12, if_neg h13, if_neg h14,
    if_neg h15, if_neg h16, if_neg h17, if_neg h18, if_neg h19, if_neg h20, if_neg h21,
    if_neg h22, if_neg h23, if_neg h24, if_neg h25, if_neg h26, if_neg h27, if_neg h28,
    if_neg h29, if_neg h30, if_neg h31, if_neg h32, if_neg h33, if_neg h34]

attribute [simp] COMMAND_LASER_OFF COMMAND_LASER_ON COMMAND_LASER_DISABLE
  COMMAND_LASER_ENABLE COMMAND_CUT COMMAND_MOVE COMMAND_JOG COMMAND_JOG_SWITCH
  COMMAND_JOG_FINISH COMMAND_HOME COMMAND_LOCK COMMAND_UNLOCK COMMAND_PLOT
  COMMAND_PLOT_START COMMAND_SET_SPEED COMMAND_SET_POWER COMMAND_SET_PPI
  COMMAND_SET_PWM COMMAND_SET_STEP COMMAND_SET_OVERSCAN COMMAND_SET_ACCELERATION
  COMMAND_SET_DRATIO COMMAND_SET_DIRECTION COMMAND_SET_INCREMENTAL
  COMMAND_SET_ABSOLUTE COMMAND_SET_POSITION COMMAND_MODE_RAPID COMMAND_MODE_PROGRAM
  COMMAND_MODE_FINISHED COMMAND_WAIT COMMAND_WAIT_FINISH COMMAND_BEEP
  COMMAND_FUNCTION COMMAND_SIGNAL

theorem set_power_state (v : ℚ) (s : S) : (set_power v s).state = s.state := by
  unfold set_power
  dsimp only
  split_ifs <;> rfl

theorem set_ppi_state (v : ℚ) (s : S) : (set_ppi v s).state = s.state := by
  unfold set_ppi
  dsimp only
  split_ifs <;> rfl

attribute [simp] laser_off laser_on laser_disable laser_enable move cut home
  set_position set_speed set_dratio set_acceleration set_step set_overscan
  set_incremental set_absolute wait wait_finish pushSignal set_pwm status

attribute [simp] REALTIME_PAUSE REALTIME_RESUME REALTIME_RESET REALTIME_STATUS
  REALTIME_SAFETY_DOOR REALTIME_JOG_CANCEL REALTIME_SPEED_PERCENT REALTIME_SPEED
  REALTIME_RAPID_PERCENT REALTIME_RAPID REALTIME_POWER_PERCENT REALTIME_POWER
  REALTIME_OVERSCAN REALTIME_LASER_DISABLE REALTIME_LASER_ENABLE
  REALTIME_FLOOD_COOLANT REALTIME_MIST_COOLANT

/-- A realtime code outside the realtime set matches no branch: no-op. -/
theorem realtime_unlisted (rc : Int) (s : S) (hc : rc ∉ realtimeCodes) :
    realtime_command rc s = s := by
  simp only [realtimeCodes, List.mem_cons, List.not_mem_nil, or_false, not_or] at hc
  obtain ⟨h1, h2, h3, h4, h5, h6, h7, h8, h9, h10, h11, h12, h13, h14, h15, h16, h17⟩ := hc
  unfold realtime_command
  simp only [if_neg h1, if_neg h2, if_neg h3, if_neg h4, if_neg h5, if_neg h6, if_neg h7,
    if_neg h8, if_neg h9, if_neg h10, if_neg h11, if_neg h12, if_neg h13, if_neg h14,
    if_neg h15, if_neg h16, if_neg h17]

/-- No realtime branch touches the motion mode. -/
theorem realtime_state_eq (rc : Int) (s : S) : (realtime_command rc s).state = s.state := by
  by_cases hmem : rc ∈ realtimeCodes
  · simp only [realtimeCodes, List.mem_cons, List.not_mem_nil, or_false] at hmem
    rcases hmem with rfl | rfl | rfl | rfl | rfl | rfl | rfl | rfl | rfl | rfl | rfl | rfl |
      rfl | rfl | rfl | rfl | rfl <;>
      simp [realtime_command, reset, clear_queue]
  · rw [realtime_unlisted rc s hmem]

set_option maxHeartbeats 2000000 in
/-- Only the three MODE branches of the dispatch chain can touch the motion
mode. -/
theorem dispatch_state_eq (c : Int) (vals : List Arg) (s : S)
    (h1 : c ≠ COMMAND_MODE_RAPID) (h2 : c ≠ COMMAND_MODE_PROGRAM)
    (h3 : c ≠ COMMAND_MODE_FINISHED) :
    (dispatch c vals s).2.state = s.state := by
  by_cases hmem : c ∈ queuedCodes
  · simp only [queuedCodes, List.mem_cons, List.not_mem_nil, or_false] at hmem
    rcases hmem with rfl | rfl | rfl | rfl | rfl | rfl | rfl | rfl | rfl | rfl | rfl | rfl |
      rfl | rfl | rfl | rfl | rfl | rfl | rfl | rfl | rfl | rfl | rfl | rfl | rfl | rfl |
      rfl | rfl | rfl | rfl | rfl | rfl | rfl | rfl <;>
      first
        | exact absurd rfl h1
        | exact absurd rfl h2
        | exact absurd rfl h3
        | (simp [dispatch]; done)
        | ((rcases h : unpack2 vals with _ | ⟨x, y⟩ <;> simp [dispatch, h]); done)
        | ((rcases h : num0 vals with e | v <;>
            simp [dispatch, h, set_power_state, set_ppi_state]); done)
        | ((rcases h : num0 vals with e | x <;> rcases h2 : num1 vals with e2 | y <;>
            simp [dispatch, h, h2]); done)
        | ((rcases vals with _ | ⟨a, _ | ⟨b, rest⟩⟩ <;> simp [dispatch]); done)
  · rw [dispatch_unlisted c vals s hmem]

/-- `command` preserves the motion mode for any non-mode code. -/
theorem command_state_eq (h : PyHead) (args : List Arg) (s : S)
    (h1 : h ≠ PyHead.intH COMMAND_MODE_RAPID) (h2 : h ≠ PyHead.intH COMMAND_MODE_PROGRAM)
    (h3 : h ≠ PyHead.intH COMMAND_MODE_FINISHED) :
    (command (Element.tup h args) s).2.2.state = s.state := by
  rcases h with c | _
  · have h1' : c ≠ COMMAND_MODE_RAPID := fun hh => h1 (by rw [hh])
    have h2' : c ≠ COMMAND_MODE_PROGRAM := fun hh => h2 (by rw [hh])
    have h3' : c ≠ COMMAND_MODE_FINISHED := fun hh => h3 (by rw [hh])
    have hd := dispatch_state_eq c args s h1' h2' h3'
    rcases hdis : dispatch c args s with ⟨exc, s'⟩
    rw [hdis] at hd
    rcases exc with _ | ex
    · simp only [command, hdis]
      exact hd
    · rcases ex <;> (simp only [command, hdis]; exact hd)
  · rfl

/-- `hold` on a single live temporary hold: the closure fires, returns true,
and survives with its call counter advanced. -/
theorem hold_pure_true (p : Nat → Bool) (j : Nat) (s : S)
    (ht : s.tempHolds = [HoldFn.pure p j]) (hj : p j = true) :
    hold s = (none, true, { s with tempHolds := [HoldFn.pure p (j + 1)] }) := by
  unfold hold
  rw [ht]
  simp [processTempHolds, callHold, hj]

/-- `hold` on a single expiring temporary hold (no permanent holds): the
closure returns false, the hold is pruned, and `hold` itself returns false. -/
theorem hold_pure_false (p : Nat → Bool) (j : Nat) (s : S)
    (ht : s.tempHolds = [HoldFn.pure p j]) (hh : s.holds = []) (hj : p j = false) :
    hold s = (none, false, { s with tempHolds := [], holds := [] }) := by
  unfold hold
  rw [ht]
  simp [processTempHolds, callHold, checkHolds, hj, hh]

/-- `hold` with no holds at all returns false. -/
theorem hold_empty (s : S) (ht : s.tempHolds = []) (hh : s.holds = []) :
    hold s = (none, false, { s with tempHolds := [], holds := [] }) := by
  unfold hold
  rw [ht]
  simp [processTempHolds, checkHolds, hh]

/-- While a lone temporary hold keeps returning true, each `hold()` call just
advances its closure counter. -/
theorem holdIter_pure (N : Nat) (p : Nat → Bool) (s0 : S)
    (hp : ∀ k, p k = true ↔ k < N)
    (ht : s0.tempHolds = [HoldFn.pure p 0]) (hh : s0.holds = []) :
    ∀ j, j ≤ N → holdIter j s0 = { s0 with tempHolds := [HoldFn.pure p j] } := by
  intro j
  induction j with
  | zero =>
    intro _
    show s0 = _
    rw [← ht]
  | succ n ih =>
    intro hle
    have hn : n ≤ N := Nat.le_of_succ_le hle
    have hlt : n < N := hle
    have heq := ih hn
    show holdS (holdIter n s0) = _
    rw [heq]
    unfold holdS
    rw [hold_pure_true p n { s0 with tempHolds := [HoldFn.pure p n] } rfl ((hp n).mpr hlt)]

/-! ## Claim theorems -/

/-- C2: dispatching SET_POWER(v) or SET_PPI(v) clamps `settings.power` to
[0, 1000], but SET_PWM(1500) leaves `settings.power = 1500`: `set_pwm`
reads the undefined attribute `self.power`, the resulting AttributeError is
swallowed by `command`, and the clamping lines never run.  The claim is right
about the intent (the identically-structured `set_power`/`set_ppi` clamp) and
the code's `self.power` is the slip. -/
theorem c2_evaluation :
    (command (Element.tup (PyHead.intH COMMAND_SET_PWM) [Arg.num 1500]) state0).2.2.settings.power = 1500 ∧
    (command (Element.tup (PyHead.intH COMMAND_SET_PWM) [Arg.num 1500]) state0).2.1 = true ∧
    (command (Element.tup (PyHead.intH COMMAND_SET_PWM) [Arg.num 1500]) state0).1 = none ∧
    (command (Element.tup (PyHead.intH COMMAND_SET_POWER) [Arg.num 1500]) state0).2.2.settings.power = 1000 ∧
    (command (Element.tup (PyHead.intH COMMAND_SET_PPI) [Arg.num 1500]) state0).2.2.settings.power = 1000 ∧
    (command (Element.tup (PyHead.intH COMMAND_SET_POWER) [Arg.num (-5)]) state0).2.2.settings.power = 0 ∧
    (command (Element.tup (PyHead.intH COMMAND_SET_PPI) [Arg.num (-5)]) state0).2.2.settings.power = 0 ∧
    (command (Element.tup (PyHead.intH COMMAND_SET_POWER) [Arg.num 500]) state0).2.2.settings.power = 500 := by
  decide

/-- C4 counterexample: `reset` invoked mid-drain with one permanent hold
installed does not remove it — the claim's "removes all holds, both temporary
and permanent" fails on the permanent set. -/
theorem c4_counterexample :
    (reset c4state).holds = c4state.holds ∧ c4state.holds ≠ [] := by
  exact ⟨rfl, by simp [c4state, state0]⟩

/-- C4 amended: `reset`, in any state, clears the in-flight job, empties the
pending queue (a subsequent `peek` returns nothing) and removes all temporary
holds; the permanent holds are left untouched. -/
theorem c4_reset (s : S) :
    (reset s).spooledItem = none ∧ peek (reset s) = none ∧
    (reset s).queue = [] ∧ (reset s).tempHolds = [] ∧
    (reset s).holds = s.holds := by
  simp [reset, clear_queue, peek]

/-- C5 counterexample: 9999 is outside the §6 enumeration, yet `command`
dispatches it with a True ("recognized/consumed") result and no exception —
not the claimed False. -/
theorem c5_counterexample :
    ((9999 : Int) ∉ queuedCodes) ∧
    (command (Element.tup (PyHead.intH 9999) [Arg.num 1]) state0).2.1 = true := by
  decide

/-- C5 amended: `command` returns False exactly when the dispatched value's
code slot is not an integer; an integer code outside the enumeration falls
through the chain and is consumed as a no-op with a True result. -/
theorem c5_unrecognized (c : Int) (vals : List Arg) (s : S) (hc : c ∉ queuedCodes) :
    command (Element.tup (PyHead.intH c) vals) s = (none, true, s) ∧
    (∀ vals2 : List Arg, ∀ s2 : S, command (Element.tup PyHead.otherH vals2) s2 = (none, false, s2)) := by
  constructor
  · simp [command, dispatch_unlisted c vals s hc]
  · intro vals2 s2
    rfl

/-- C5 witness: instance at code 9999 on a fresh state. -/
theorem c5_witness :
    ((9999 : Int) ∉ queuedCodes) ∧
    command (Element.tup (PyHead.intH 9999) []) state0 = (none, true, state0) :=
  ⟨by decide, (c5_unrecognized 9999 [] state0 (by decide)).1⟩

/-- C6: `job_if_idle` enqueues (via `job`) and returns True exactly when the
queue length is 0 at the check; on a non-empty queue it returns False and
leaves the state untouched. -/
theorem c6_job_if_idle (e : Job) (s : S) :
    ((job_if_idle e s).1 = true ↔ s.queue.length = 0) ∧
    (s.queue.length > 0 → job_if_idle e s = (false, s)) ∧
    (s.queue.length = 0 → job_if_idle e s = (true, job_one e s)) := by
  unfold job_if_idle
  refine ⟨?_, ?_, ?_⟩
  · split_ifs with h <;> simp [h]
  · intro hgt
    have h : ¬ s.queue.length = 0 := by omega
    simp [h]
  · intro h
    simp [h]

/-- C6 witness: enqueues on the empty queue, no-ops on a non-empty one. -/
theorem c6_witness :
    (job_if_idle (Job.intJ COMMAND_HOME) state0).1 = true ∧
    job_if_idle (Job.intJ COMMAND_HOME) stateQ = (false, stateQ) :=
  ⟨(c6_job_if_idle (Job.intJ COMMAND_HOME) state0).1.mpr (by decide),
   (c6_job_if_idle (Job.intJ COMMAND_HOME) stateQ).2.1 (by decide)⟩

/-- C8 counterexample: starting already in RAPID mode (the freshly
constructed state), two consecutive `ensure_rapid_mode` calls publish zero
mode-changed events, not exactly one. -/
theorem c8_counterexample :
    ensure_rapid_mode (ensure_rapid_mode state0) = state0 ∧
    modeSignalCount (ensure_rapid_mode (ensure_rapid_mode state0)) = 0 ∧
    modeSignalCount (ensure_rapid_mode (ensure_rapid_mode state0)) ≠ 1 :=
  ⟨rfl, rfl, by decide⟩

/-- C8 amended: a call is a no-op when the mode is already RAPID; from any
other starting mode, two consecutive `ensure_rapid_mode` calls publish the
mode-changed event exactly once (the first sets RAPID and publishes, the
second is a no-op). -/
theorem c8_ensure_rapid_twice (s : S) :
    (s.state = INTERPRETER_STATE_RAPID → ensure_rapid_mode s = s) ∧
    (s.state ≠ INTERPRETER_STATE_RAPID →
      modeSignalCount (ensure_rapid_mode (ensure_rapid_mode s)) = modeSignalCount s + 1 ∧
      (ensure_rapid_mode (ensure_rapid_mode s)).state = INTERPRETER_STATE_RAPID) := by
  constructor
  · intro h
    simp [ensure_rapid_mode, h]
  · intro h
    have h1 : ensure_rapid_mode s =
        pushSignal (Signal.mode INTERPRETER_STATE_RAPID) { s with state := INTERPRETER_STATE_RAPID } := by
      simp [ensure_rapid_mode, h]
    rw [h1]
    constructor
    · simp [ensure_rapid_mode, pushSignal, modeSignalCount, List.filter_append]
    · simp [ensure_rapid_mode, pushSignal]

/-- C8 witness: instance from PROGRAM mode. -/
theorem c8_witness :
    statePgm.state ≠ INTERPRETER_STATE_RAPID ∧
    modeSignalCount (ensure_rapid_mode (ensure_rapid_mode statePgm)) = modeSignalCount statePgm + 1 :=
  ⟨by decide, ((c8_ensure_rapid_twice statePgm).2 (by decide)).1⟩

/-- C10: on any nonzero 32-bit mask and any register value, `set_prop` makes
`is_prop` true, `unset_prop` makes it false, `toggle_prop` flips it, and none
of the three changes a register bit outside the mask. -/
theorem c10_prop_register (m : Nat) (s : S) (hm : m ≠ 0) (hm32 : m < 2 ^ 32) :
    is_prop m (set_prop m s) = true ∧
    is_prop m (unset_prop m s) = false ∧
    is_prop m (toggle_prop m s) = !is_prop m s ∧
    (∀ i : Nat, m.testBit i = false →
      (set_prop m s).properties.testBit i = s.properties.testBit i ∧
      (unset_prop m s).properties.testBit i = s.properties.testBit i ∧
      (toggle_prop m s).properties.testBit i = s.properties.testBit i) := by
  have hset : is_prop m (set_prop m s) = true := by
    simp [is_prop, set_prop, lor_land_self, hm]
  have hunset : is_prop m (unset_prop m s) = false := by
    simp [is_prop, unset_prop, ldiff_land_self]
  refine ⟨hset, hunset, ?_, ?_⟩
  · unfold toggle_prop
    split_ifs with h
    · rw [hunset, h]
      rfl
    · rw [hset]
      simp only [Bool.not_eq_true] at h
      rw [h]
      rfl
  · intro i hi
    refine ⟨?_, ?_, ?_⟩
    · simp [set_prop, Nat.testBit_lor, hi]
    · simp [unset_prop, Nat.testBit_ldiff, hi]
    · unfold toggle_prop
      split_ifs <;> simp [set_prop, unset_prop, Nat.testBit_lor, Nat.testBit_ldiff, hi]

set_option maxHeartbeats 2000000 in
/-- C9: the motion mode changes only through the three explicit MODE codes:
dispatching any other value through `command` (whatever its arguments), and
dispatching any realtime code at all, leaves the mode field unchanged. -/
theorem c9_mode_invariant (e : Element) (s : S)
    (h1 : headOf e ≠ PyHead.intH COMMAND_MODE_RAPID)
    (h2 : headOf e ≠ PyHead.intH COMMAND_MODE_PROGRAM)
    (h3 : headOf e ≠ PyHead.intH COMMAND_MODE_FINISHED) :
    (command e s).2.2.state = s.state ∧
    (∀ rc : Int, (realtime_command rc s).state = s.state) := by
  constructor
  · rcases e with ⟨h⟩ | ⟨h, args⟩
    · exact command_state_eq h [] s h1 h2 h3
    · exact command_state_eq h args s h1 h2 h3
  · intro rc
    exact realtime_state_eq rc s

/-- C3: a lone temporary hold whose closure is true on exactly its first N
evaluations makes `hold()` return true on exactly the first N ticks; on tick
N+1 the closure returns false, the hold is pruned and does not by itself
force a hold on that tick, and from then on the temporary set stays empty
with `hold()` false. -/
theorem c3_temp_hold_lifecycle (N : Nat) (p : Nat → Bool) (s0 : S)
    (hp : ∀ k, p k = true ↔ k < N)
    (ht : s0.tempHolds = [HoldFn.pure p 0]) (hh : s0.holds = []) :
    (∀ j, j < N → holdB (holdIter j s0) = true) ∧
    holdB (holdIter N s0) = false ∧
    (∀ j, j ≤ N → (holdIter j s0).tempHolds = [HoldFn.pure p j]) ∧
    (∀ j, N < j → (holdIter j s0).tempHolds = [] ∧ holdB (holdIter j s0) = false) := by
  have key := holdIter_pure N p s0 hp ht hh
  have hNf : p N = false := by
    cases hpN : p N
    · rfl
    · exact absurd ((hp N).mp hpN) (lt_irrefl N)
  have hafter : ∀ d, holdIter (N + 1 + d) s0 = { s0 with tempHolds := [], holds := [] } := by
    intro d
    induction d with
    | zero =>
      show holdS (holdIter N s0) = _
      rw [key N (le_refl N)]
      unfold holdS
      rw [hold_pure_false p N { s0 with tempHolds := [HoldFn.pure p N] } rfl hh hNf]
    | succ d ihd =>
      show holdS (holdIter (N + 1 + d) s0) = _
      rw [ihd]
      unfold holdS
      rw [hold_empty { s0 with tempHolds := [], holds := [] } rfl rfl]
  refine ⟨?_, ?_, ?_, ?_⟩
  · intro j hj
    rw [holdB, key j (le_of_lt hj),
      hold_pure_true p j { s0 with tempHolds := [HoldFn.pure p j] } rfl ((hp j).mpr hj)]
  · rw [holdB, key N (le_refl N),
      hold_pure_false p N { s0 with tempHolds := [HoldFn.pure p N] } rfl hh hNf]
  · intro j hj
    rw [key j hj]
  · intro j hj
    obtain ⟨d, rfl⟩ : ∃ d, j = N + 1 + d := ⟨j - (N + 1), by omega⟩
    constructor
    · rw [hafter d]
    · rw [holdB, hafter d,
        hold_empty { s0 with tempHolds := [], holds := [] } rfl rfl]

/-- C3 witness: N = 2 via `pred2`: two blocking ticks, a pruning third tick,
an empty set afterwards. -/
theorem c3_witness :
    holdB c3state = true ∧ holdB (holdIter 1 c3state) = true ∧
    holdB (holdIter 2 c3state) = false ∧ (holdIter 3 c3state).tempHolds = [] := by
  have h := c3_temp_hold_lifecycle 2 pred2 c3state
    (fun k => by simp [pred2]) rfl rfl
  exact ⟨h.1 0 (by decide), h.1 1 (by decide), h.2.1, (h.2.2.2 3 (by decide)).1⟩

/-- C1 counterexample: an in-flight lazy sequence yields an unrecognized
value; the tick raises ValueError (the claim says no exception escapes) and
the remainder of the sequence is still in flight (the claim says it is
discarded). -/
theorem c1_counterexample :
    tickExc c1state = some PyExc.valueError ∧
    (tickS c1state).spooledItem ≠ none := by
  decide

/-- C1 amended: when dispatch reports a pulled value unrecognized during a
drain, `_process_spooled_item` raises ValueError, which the
`except StopIteration:` clause does not catch: the exception escapes the
tick, and the sequence — advanced past the offending element — stays in
flight, so the next tick resumes it instead of dequeuing a new Job. -/
theorem c1_unrecognized_drain (s : S) (e : Element) (rest : List Element)
    (hhd : headOf e = PyHead.otherH)
    (hin : s.spooledItem = some (SpooledItem.iter (e :: rest)))
    (hth : s.tempHolds = []) (hph : s.holds = []) :
    tickExc s = some PyExc.valueError ∧
    (tickS s).spooledItem = some (SpooledItem.iter rest) := by
  have hproc : interpret s = processSpooledItem s := by
    unfold interpret
    simp [hin]
  have hholds : hold s = (none, false, { s with tempHolds := [], holds := [] }) :=
    hold_empty s hth hph
  have hcmd : ∀ s1 : S, command e s1 = (none, false, s1) := by
    intro s1
    rcases e with ⟨h⟩ | ⟨h, args⟩ <;> simp only [headOf] at hhd <;> rw [hhd] <;> rfl
  have hres : processSpooledItem s = (some PyExc.valueError,
      { s with tempHolds := [], holds := [],
               spooledItem := some (SpooledItem.iter rest) }) := by
    unfold processSpooledItem
    rw [hholds]
    simp only [hin, hcmd]
  rw [tickExc, tickS, hproc, hres]
  exact ⟨rfl, rfl⟩

/-- C1 witness: instance with a tuple-shaped unrecognized value. -/
theorem c1_witness :
    tickExc c1stateW = some PyExc.valueError ∧
    (tickS c1stateW).spooledItem =
      some (SpooledItem.iter [Element.tup (PyHead.intH COMMAND_HOME) []]) :=
  c1_unrecognized_drain c1stateW (Element.tup PyHead.otherH [Arg.num 3])
    [Element.tup (PyHead.intH COMMAND_HOME) []] (by decide) rfl rfl rfl

set_option maxHeartbeats 2000000 in
/-- C7: from an empty in-flight slot, no holds, and the §8 scenario sequence
spooled: tick 1 dequeues the sequence and dispatches SET_SPEED(10); tick 2
dispatches MOVE(5,5); tick 3 hits StopIteration and clears the in-flight
slot, so a new dequeue is possible; no tick raises. -/
theorem c7_lazy_sequence (s0 : S)
    (hin : s0.spooledItem = none) (hth : s0.tempHolds = []) (hph : s0.holds = [])
    (hq : s0.queue = [c7job]) :
    tickExc s0 = none ∧
    (tickS s0).settings.speed = 10 ∧
    tickExc (tickS s0) = none ∧
    (tickS (tickS s0)).currentX = 5 ∧
    (tickS (tickS s0)).currentY = 5 ∧
    tickExc (tickS (tickS s0)) = none ∧
    (tickS (tickS (tickS s0))).spooledItem = none := by
  obtain ⟨st, sp, hs, th, md, pr, ir, la, cx, cy, ra, jg, nr, orb, ojm, ojn, qu, so, qe, sg⟩ := s0
  simp only at hin hth hph hq
  subst hin hth hph hq
  refine ⟨?_, ?_, ?_, ?_, ?_, ?_, ?_⟩ <;>
    simp [tickExc, tickS, interpret, fetchNextItem, processSpooledItem, hold,
      processTempHolds, checkHolds, callHold, command, dispatch, c7job, unpack2, num0]

/-- C7 witness: the scenario run from the freshly constructed state. -/
theorem c7_witness :
    tickExc c7state = none ∧
    (tickS c7state).settings.speed = 10 ∧
    tickExc (tickS c7state) = none ∧
    (tickS (tickS c7state)).currentX = 5 ∧
    (tickS (tickS c7state)).currentY = 5 ∧
    tickExc (tickS (tickS c7state)) = none ∧
    (tickS (tickS (tickS c7state))).spooledItem = none :=
  c7_lazy_sequence c7state rfl rfl rfl rfl

/-- C9 witness: a MOVE command and a realtime RESET, from PROGRAM mode. -/
theorem c9_witness :
    (command (Element.tup (PyHead.intH COMMAND_MOVE) [Arg.num 3, Arg.num 4]) statePgm).2.2.state
      = statePgm.state ∧
    (realtime_command REALTIME_RESET statePgm).state = statePgm.state :=
  ⟨(c9_mode_invariant (Element.tup (PyHead.intH COMMAND_MOVE) [Arg.num 3, Arg.num 4]) statePgm
      (by decide) (by decide) (by decide)).1,
   (c9_mode_invariant (Element.tup (PyHead.intH COMMAND_MOVE) [Arg.num 3, Arg.num 4]) statePgm
      (by decide) (by decide) (by decide)).2 REALTIME_RESET⟩

/-- C10 witness: instance at mask 1 on the fresh state. -/
theorem c10_witness :
    (1 : Nat) ≠ 0 ∧ is_prop 1 (set_prop 1 state0) = true ∧
    is_prop 1 (unset_prop 1 state0) = false :=
  ⟨by decide, (c10_prop_register 1 state0 (by decide) (by decide)).1,
   (c10_prop_register 1 state0 (by decide) (by decide)).2.1⟩

end BaseDevice
